import Mathlib

/-!
Shallow embedding of `src/swap.rs` (rgb-lightning-node): the `SwapType`
direction type and the swap-offer string parser `SwapString::from_str`.
All machine integers (`u64`) are modelled as `Nat` with explicit bounds
where overflow matters.
-/

set_option autoImplicit false

/-- A decoded contract identifier (`rgbstd::contract::ContractId`), kept in
its canonical textual form; the type is opaque to the parser. -/
abbrev ContractId := String

/-- `lightning::ln::PaymentHash`: the 32 bytes decoded from the hex field. -/
structure PaymentHash where
  bytes : List Nat
deriving DecidableEq

/-- `SwapType` (src/swap.rs lines 9-13): buy or sell direction carrying the
asset amount and the Lightning amount in msat. -/
inductive SwapType where
  | BuyAsset (asset_amount : Nat) (amt_msat : Nat)
  | SellAsset (asset_amount : Nat) (amt_msat : Nat)
deriving DecidableEq

/-- The `fmt::Display` impl for `SwapType` (lines 15-22): writes `"buy"` for
`BuyAsset` and `"sell"` for `SellAsset`. -/
def SwapType.fmt : SwapType → String
  | .BuyAsset _ _ => "buy"
  | .SellAsset _ _ => "sell"

/-- `SwapType::opposite` (lines 25-42): swaps the variant, keeping both
amounts. -/
def SwapType.opposite : SwapType → SwapType
  | .BuyAsset asset_amount amt_msat => .SellAsset asset_amount amt_msat
  | .SellAsset asset_amount amt_msat => .BuyAsset asset_amount amt_msat

/-- `SwapType::is_buy` (lines 44-46). -/
def SwapType.is_buy : SwapType → Bool
  | .BuyAsset _ _ => true
  | .SellAsset _ _ => false

/-- `SwapType::amt_msat` accessor (lines 48-52). -/
def SwapType.amt_msat : SwapType → Nat
  | .BuyAsset _ m => m
  | .SellAsset _ m => m

/-- `SwapType::asset_amount` accessor (lines 53-59). -/
def SwapType.asset_amount : SwapType → Nat
  | .BuyAsset a _ => a
  | .SellAsset a _ => a

/-- `SwapString` (lines 62-68). -/
structure SwapString where
  contract_id : ContractId
  swap_type : SwapType
  expiry : Nat
  payment_hash : PaymentHash
deriving DecidableEq

/-- Outcome of `SwapString::from_str`. The Rust function returns
`Result<SwapString, &'static str>`; `panicked` models the arithmetic-overflow
abort of the unchecked `u64` multiplication `amount * price` at line 113
(debug builds abort there; release builds silently wrap modulo `2 ^ 64`
instead of producing `amount * price`). -/
inductive ParseResult where
  | ok (v : SwapString)
  | err (e : String)
  | panicked
deriving DecidableEq

/-- Rust `s.split('/')` on the character list: every separator splits, empty
fields are kept, and the empty string yields one empty field. -/
def splitSlash : List Char → List (List Char)
  | [] => [[]]
  | c :: rest =>
    let groups := splitSlash rest
    if c = '/' then [] :: groups
    else
      match groups with
      | [] => [[c]]
      | g :: gs => (c :: g) :: gs

/-- `s.split('/')` as a list of strings. -/
def split (s : String) : List String := (splitSlash s.data).map String.mk

/-- Rust `str::parse::<u64>()`: an optional leading `+`, then one or more
ASCII digits, with the value below `2 ^ 64`; anything else (empty input,
any other character, overflow) fails. -/
def parseU64 (s : String) : Option Nat :=
  let ds : List Char :=
    match s.data with
    | '+' :: rest => rest
    | l => l
  if ds.isEmpty then none
  else if ds.all Char.isDigit then
    let n := ds.foldl (fun acc c => acc * 10 + (c.toNat - 48)) 0
    if n < 2 ^ 64 then some n else none
  else none

/-- Value of one hexadecimal digit (both cases), or `none`. -/
def hexDigitVal (c : Char) : Option Nat :=
  if '0' ≤ c ∧ c ≤ '9' then some (c.toNat - 48)
  else if 'a' ≤ c ∧ c ≤ 'f' then some (c.toNat - 97 + 10)
  else if 'A' ≤ c ∧ c ≤ 'F' then some (c.toNat - 65 + 10)
  else none

/-- Decodes pairs of hex digits into bytes; an odd-length tail or a non-hex
character fails. -/
def hexPairsToBytes : List Char → Option (List Nat)
  | [] => some []
  | [_] => none
  | hi :: lo :: rest =>
    match hexDigitVal hi, hexDigitVal lo, hexPairsToBytes rest with
    | some h, some l, some tail => some ((h * 16 + l) :: tail)
    | _, _, _ => none

/-- Modelled from the spec: `crate::utils::hex_str_to_vec` is code of this
repository that is not under `src/`. Per the spec, the hex codec is
`decode(text) -> bytes | DecodeError`, and a payment hash is "a fixed-length
(32-byte) binary value decoded from a hexadecimal string" where "malformed or
wrong-length hex is rejected, not truncated or padded": the codec decodes a
hexadecimal string into exactly its byte vector and fails on malformed
input. -/
def hex_str_to_vec (s : String) : Option (List Nat) := hexPairsToBytes s.data

/-- Lines 90-92: `hex_str_to_vec(..).and_then(|vec| vec.try_into().ok())
.map(PaymentHash)` — the decoded bytes must be exactly 32 to fit
`[u8; 32]`. -/
def decodePaymentHash (s : String) : Option PaymentHash :=
  (hex_str_to_vec s).bind fun v => if v.length = 32 then some (PaymentHash.mk v) else none

/-- Modelled from the spec: the contract-identifier codec (the validating
decoder `ContractId::from_str` of the external ledger library called at
line 87; its source is not part of this repository). The spec describes a
contract identifier as "a canonically-encoded, globally unique identifier
for a ledger asset" with a fixed-format textual encoding, and asset tokens
as "either the literal `btc` or a canonically-encoded ledger contract
identifier" — so the literal `btc` names the native currency and is not
itself a canonical contract identifier. We model the fixed canonical format
as 64 hexadecimal characters (a 32-byte identifier in canonical text form);
in particular the three-character token `"btc"` does not decode. -/
def cidDecodeModel (s : String) : Option ContractId :=
  if s.data.length = 64 ∧ s.data.all (fun c => (hexDigitVal c).isSome) then some s else none

/-- `SwapString::from_str` (lines 73-134), parameterized by the external
contract-identifier decoder `cidDecode` standing for the call to
`ContractId::from_str` at line 87. Faithful to the source order: field-count
check, then the combined decode check (`Unable to parse` if any of amount,
contract id, price, expiry or payment hash fails), then the zero check, then
the unchecked multiplication `amount * price`, then the side-token match. -/
def SwapString.from_str (cidDecode : String → Option ContractId) (s : String) : ParseResult :=
  match split s with
  | [amount_s, contract_id_s, side, price_s, expiry_s, payment_hash_s] =>
    match parseU64 amount_s, cidDecode contract_id_s, parseU64 price_s, parseU64 expiry_s,
        decodePaymentHash payment_hash_s with
    | some amount, some contract_id, some price, some expiry, some payment_hash =>
      if amount == 0 || price == 0 || expiry == 0 then
        ParseResult.err "Amount, price and expiry should be positive"
      else if 2 ^ 64 ≤ amount * price then
        ParseResult.panicked
      else
        let amt_msat := amount * price
        match side with
        | "buy" =>
          ParseResult.ok ⟨contract_id, SwapType.BuyAsset amount amt_msat, expiry, payment_hash⟩
        | "sell" =>
          ParseResult.ok ⟨contract_id, SwapType.SellAsset amount amt_msat, expiry, payment_hash⟩
        | _ => ParseResult.err "Invalid swap type"
    | _, _, _, _, _ => ParseResult.err "Unable to parse"
  | _ => ParseResult.err "Wrong number of parts"

/-- A valid 64-hex-character contract identifier used in concrete inputs. -/
def cidOk : String := String.mk (List.replicate 64 'c')

/-- A valid 64-hex-character payment-hash field (decodes to 32 bytes `0xaa`). -/
def hashOk : String := String.mk (List.replicate 64 'a')

/-- A 63-hex-character payment-hash field (odd length, malformed). -/
def hash63 : String := String.mk (List.replicate 63 'a')

/-- A concrete input used by a witness or counterexample below. -/
def inC1 : String := "100/" ++ cidOk ++ "/buy/5/600/" ++ hashOk

/-- A concrete input used by a witness or counterexample below. -/
def vC1 : SwapString := ⟨cidOk, SwapType.BuyAsset 100 500, 600, ⟨List.replicate 32 170⟩⟩

/-- A concrete input used by a witness or counterexample below. -/
def inC3 : String := "0/" ++ cidOk ++ "/buy/5/600/" ++ hashOk

/-- A concrete input used by a witness or counterexample below. -/
def inC4 : String := "1/" ++ cidOk ++ "/buy/5/600/" ++ hash63

/-- A concrete input used by a witness or counterexample below. -/
def inC5 : String := "0/" ++ cidOk ++ "/zzz/5/600/" ++ hashOk

/-- A concrete input used by a witness or counterexample below. -/
def inC5b : String := "5/" ++ cidOk ++ "/zzz/0/600/" ++ hashOk

/-- A concrete input used by a witness or counterexample below. -/
def inC6 : String := "18446744073709551615/" ++ cidOk ++ "/buy/2/600/" ++ hashOk

/-- A concrete input used by a witness or counterexample below. -/
def inC9 : String := "100/btc/buy/5/600/" ++ hashOk

/-- A concrete input used by a witness or counterexample below. -/
def inC10 : String := "7/" ++ cidOk ++ "/sell/3/9/" ++ hashOk

/-- A concrete input used by a witness or counterexample below. -/
def vC10 : SwapString := ⟨cidOk, SwapType.SellAsset 7 21, 9, ⟨List.replicate 32 170⟩⟩

/-- Shared inversion lemma: when the split does not produce exactly six
fields, the parser stops with the structural error, whatever the fields
contain. -/
theorem from_str_not_six (cidDecode : String → Option ContractId) (s : String)
    (h : (split s).length ≠ 6) :
    SwapString.from_str cidDecode s = ParseResult.err "Wrong number of parts" := by
  unfold SwapString.from_str
  split
  · rename_i heq
    rw [heq] at h
    simp at h
  · rfl

/-- Shared lemma: six fields, all five decoded values present, and some
decoded number equal to zero force the positivity error. -/
theorem from_str_zero (cidDecode : String → Option ContractId) (s : String)
    (a c sd p e ph : String) (av pv ev : Nat)
    (hsplit : split s = [a, c, sd, p, e, ph])
    (ha : parseU64 a = some av) (hc : (cidDecode c).isSome = true)
    (hp : parseU64 p = some pv) (he : parseU64 e = some ev)
    (hph : (decodePaymentHash ph).isSome = true)
    (hz : av = 0 ∨ pv = 0 ∨ ev = 0) :
    SwapString.from_str cidDecode s =
      ParseResult.err "Amount, price and expiry should be positive" := by
  obtain ⟨cid, hc⟩ := Option.isSome_iff_exists.mp hc
  obtain ⟨hash, hph⟩ := Option.isSome_iff_exists.mp hph
  have hcond : (av == 0 || pv == 0 || ev == 0) = true := by
    rcases hz with h | h | h <;> simp [h]
  unfold SwapString.from_str
  rw [hsplit]
  simp only [ha, hc, hp, he, hph, hcond, if_true]

/-- Shared inversion lemma for successful parses: a success determines six
fields, all five decoded values, a nonzero amount, price and expiry, a
product below `2 ^ 64`, and a side token `"buy"` or `"sell"` matching the
constructed variant. -/
theorem from_str_ok_inv (cidDecode : String → Option ContractId) (s : String) (v : SwapString)
    (h : SwapString.from_str cidDecode s = ParseResult.ok v) :
    ∃ a c sd p e ph amount cid price expiry hash,
      split s = [a, c, sd, p, e, ph] ∧
      parseU64 a = some amount ∧ cidDecode c = some cid ∧ parseU64 p = some price ∧
      parseU64 e = some expiry ∧ decodePaymentHash ph = some hash ∧
      amount ≠ 0 ∧ price ≠ 0 ∧ expiry ≠ 0 ∧ amount * price < 2 ^ 64 ∧
      ((sd = "buy" ∧ v = ⟨cid, SwapType.BuyAsset amount (amount * price), expiry, hash⟩) ∨
        (sd = "sell" ∧ v = ⟨cid, SwapType.SellAsset amount (amount * price), expiry, hash⟩)) := by
  unfold SwapString.from_str at h
  split at h
  case _ a c sd p e ph heq =>
    split at h
    case _ amount cid price expiry hash ha hc hp he hph =>
      split at h
      · exact absurd h (by simp)
      · split at h
        · exact absurd h (by simp)
        · rename_i hz hov
          simp only [Bool.or_eq_true, beq_iff_eq] at hz
          push_neg at hz
          obtain ⟨⟨hz1, hz2⟩, hz3⟩ := hz
          have hov' : amount * price < 2 ^ 64 := Nat.lt_of_not_le hov
          split at h
          · cases h
            exact ⟨a, c, "buy", p, e, ph, amount, cid, price, expiry, hash, heq, ha, hc, hp,
              he, hph, hz1, hz2, hz3, hov', Or.inl ⟨rfl, rfl⟩⟩
          · cases h
            exact ⟨a, c, "sell", p, e, ph, amount, cid, price, expiry, hash, heq, ha, hc, hp,
              he, hph, hz1, hz2, hz3, hov', Or.inr ⟨rfl, rfl⟩⟩
          · exact absurd h (by simp)
    case _ =>
      exact absurd h (by simp)
  case _ =>
    exact absurd h (by simp)

/-- Shared lemma: six fields with any one of the five decoded values missing
give the combined syntactic error of lines 94-101. -/
theorem from_str_unable (cidDecode : String → Option ContractId) (s : String)
    (a c sd p e ph : String)
    (hsplit : split s = [a, c, sd, p, e, ph])
    (hbad : parseU64 a = none ∨ cidDecode c = none ∨ parseU64 p = none ∨ parseU64 e = none ∨
      decodePaymentHash ph = none) :
    SwapString.from_str cidDecode s = ParseResult.err "Unable to parse" := by
  unfold SwapString.from_str
  split
  · rename_i a' c' sd' p' e' ph' heq
    rw [hsplit] at heq
    simp only [List.cons.injEq, and_true] at heq
    obtain ⟨ea, ec, esd, ep, ee, eph⟩ := heq
    subst ea; subst ec; subst esd; subst ep; subst ee; subst eph
    split
    · rename_i amount cid price expiry hash ha hc hp he hph
      rcases hbad with h | h | h | h | h <;> simp_all
    · rfl
  · rename_i hne
    exact absurd hsplit (hne a c sd p e ph)

example : split "a/b" = ["a", "b"] := by decide
example : split "" = [""] := by decide
example : split "a//" = ["a", "", ""] := by decide
example : parseU64 "100" = some 100 := by decide
example : parseU64 "18446744073709551615" = some 18446744073709551615 := by decide
example : parseU64 "18446744073709551616" = none := by decide
example : parseU64 "+7" = some 7 := by decide
example : parseU64 "" = none := by decide
example : cidDecodeModel "btc" = none := by decide
example : (cidDecodeModel cidOk).isSome = true := by decide
example : decodePaymentHash hashOk = some ⟨List.replicate 32 170⟩ := by decide
example : decodePaymentHash hash63 = none := by decide
example :
    SwapString.from_str cidDecodeModel ("100/" ++ cidOk ++ "/buy/5/600/" ++ hashOk) =
      ParseResult.ok ⟨cidOk, SwapType.BuyAsset 100 500, 600, ⟨List.replicate 32 170⟩⟩ := by
  decide

/-- Claim C1: for every input string the parser accepts, the resulting
value's `asset_amount` is the integer parsed from the first field, its
`amt_msat` is `amount * price` with `price` parsed from the fourth field,
`expiry` is the integer parsed from the fifth field, and the swap type is
the buy variant iff the third field is exactly `"buy"` (sell variant iff
exactly `"sell"`). -/
theorem c1_accepted_fields (cidDecode : String → Option ContractId) (s : String) (v : SwapString)
    (a c sd p e ph : String) (av pv ev : Nat)
    (hsplit : split s = [a, c, sd, p, e, ph])
    (ha : parseU64 a = some av) (hp : parseU64 p = some pv) (he : parseU64 e = some ev)
    (hok : SwapString.from_str cidDecode s = ParseResult.ok v) :
    v.swap_type.asset_amount = av ∧ v.swap_type.amt_msat = av * pv ∧ v.expiry = ev ∧
      (v.swap_type.is_buy = true ↔ sd = "buy") ∧ (v.swap_type.is_buy = false ↔ sd = "sell") := by
  obtain ⟨a', c', sd', p', e', ph', amount, cid, price, expiry, hash,
    hsplit', ha', hc', hp', he', hph', hz1, hz2, hz3, hov, hcase⟩ := from_str_ok_inv _ _ _ hok
  rw [hsplit] at hsplit'
  simp only [List.cons.injEq, and_true] at hsplit'
  obtain ⟨ea, ec, esd, ep, ee, eph⟩ := hsplit'
  subst ea; subst ec; subst esd; subst ep; subst ee; subst eph
  have hav : av = amount := Option.some.inj (ha.symm.trans ha')
  have hpv : pv = price := Option.some.inj (hp.symm.trans hp')
  have hev : ev = expiry := Option.some.inj (he.symm.trans he')
  subst hav; subst hpv; subst hev
  rcases hcase with ⟨hsd, hv⟩ | ⟨hsd, hv⟩ <;> subst hv <;> subst hsd
  · refine ⟨rfl, rfl, rfl, ?_, ?_⟩
    · show true = true ↔ "buy" = "buy"
      decide
    · show true = false ↔ "buy" = "sell"
      decide
  · refine ⟨rfl, rfl, rfl, ?_, ?_⟩
    · show false = true ↔ "sell" = "buy"
      decide
    · show false = false ↔ "sell" = "sell"
      decide

/-- Claim C1 witness: the spec's example input
`"100/<valid id>/buy/5/600/<64 hex chars>"` parses to `amt_msat = 500` and a
buy direction. -/
theorem c1_accepted_fields_witness :
    SwapString.from_str cidDecodeModel inC1 = ParseResult.ok vC1 ∧
      (vC1.swap_type.asset_amount = 100 ∧ vC1.swap_type.amt_msat = 100 * 5 ∧ vC1.expiry = 600 ∧
        (vC1.swap_type.is_buy = true ↔ "buy" = "buy") ∧
        (vC1.swap_type.is_buy = false ↔ "buy" = "sell")) :=
  ⟨by decide,
    c1_accepted_fields cidDecodeModel inC1 vC1 "100" cidOk "buy" "5" "600" hashOk 100 5 600
      (by decide) (by decide) (by decide) (by decide) (by decide)⟩

/-- Claim C2: whenever the number of `/`-separated fields differs from six,
parsing fails with the structural error `Wrong number of parts`, regardless
of the field contents. -/
theorem c2_wrong_parts (cidDecode : String → Option ContractId) (s : String)
    (h : (split s).length ≠ 6) :
    SwapString.from_str cidDecode s = ParseResult.err "Wrong number of parts" :=
  from_str_not_six cidDecode s h

/-- Claim C2 witness: a three-field input and a seven-field input (trailing
separator) both hit the structural error. -/
theorem c2_wrong_parts_witness :
    ((split "1/2/3").length ≠ 6 ∧
        SwapString.from_str cidDecodeModel "1/2/3" = ParseResult.err "Wrong number of parts") ∧
      SwapString.from_str cidDecodeModel "1/c/buy/5/600/aa/" =
        ParseResult.err "Wrong number of parts" :=
  ⟨⟨by decide, c2_wrong_parts cidDecodeModel "1/2/3" (by decide)⟩,
    c2_wrong_parts cidDecodeModel "1/c/buy/5/600/aa/" (by decide)⟩

/-- Claim C3: a six-field input whose amount, contract-id, price, expiry and
payment-hash fields all decode, with a zero amount, price or expiry, fails
with the domain positivity error, a message distinct from the generic
`Unable to parse`. -/
theorem c3_zero_positivity (cidDecode : String → Option ContractId) (s : String)
    (a c sd p e ph : String) (av pv ev : Nat)
    (hsplit : split s = [a, c, sd, p, e, ph])
    (ha : parseU64 a = some av) (hc : (cidDecode c).isSome = true)
    (hp : parseU64 p = some pv) (he : parseU64 e = some ev)
    (hph : (decodePaymentHash ph).isSome = true)
    (hz : av = 0 ∨ pv = 0 ∨ ev = 0) :
    SwapString.from_str cidDecode s =
        ParseResult.err "Amount, price and expiry should be positive" ∧
      ParseResult.err "Amount, price and expiry should be positive" ≠
        (ParseResult.err "Unable to parse" : ParseResult) :=
  ⟨from_str_zero cidDecode s a c sd p e ph av pv ev hsplit ha hc hp he hph hz, by decide⟩

/-- Claim C3 witness: a zero amount with every field decodable yields the
positivity error. -/
theorem c3_zero_positivity_witness :
    split inC3 = ["0", cidOk, "buy", "5", "600", hashOk] ∧
      SwapString.from_str cidDecodeModel inC3 =
        ParseResult.err "Amount, price and expiry should be positive" :=
  ⟨by decide,
    (c3_zero_positivity cidDecodeModel inC3 "0" cidOk "buy" "5" "600" hashOk 0 5 600
        (by decide) (by decide) (by decide) (by decide) (by decide) (by decide)
        (Or.inl rfl)).1⟩

/-- Claim C4: the payment-hash field is accepted iff it is a hex string
decoding to exactly 32 bytes. For a six-field input: if the field does not
decode to a 32-byte hash the parser fails with `Unable to parse`, and on
any success the stored hash is exactly the decoded 32 bytes, never truncated
or padded. -/
theorem c4_payment_hash_exact (cidDecode : String → Option ContractId) (s : String)
    (a c sd p e ph : String)
    (hsplit : split s = [a, c, sd, p, e, ph]) :
    (decodePaymentHash ph = none →
        SwapString.from_str cidDecode s = ParseResult.err "Unable to parse") ∧
      ∀ v, SwapString.from_str cidDecode s = ParseResult.ok v →
        ∃ bytes, hex_str_to_vec ph = some bytes ∧ bytes.length = 32 ∧
          v.payment_hash = PaymentHash.mk bytes := by
  constructor
  · intro hph
    exact from_str_unable cidDecode s a c sd p e ph hsplit
      (Or.inr (Or.inr (Or.inr (Or.inr hph))))
  · intro v hok
    obtain ⟨a', c', sd', p', e', ph', amount, cid, price, expiry, hash,
      hsplit', ha', hc', hp', he', hph', hz1, hz2, hz3, hov, hcase⟩ := from_str_ok_inv _ _ _ hok
    rw [hsplit] at hsplit'
    simp only [List.cons.injEq, and_true] at hsplit'
    obtain ⟨ea, ec, esd, ep, ee, eph⟩ := hsplit'
    subst eph
    unfold decodePaymentHash at hph'
    cases hhex : hex_str_to_vec ph with
    | none => rw [hhex] at hph'; exact absurd hph' (by simp)
    | some bytes =>
      rw [hhex] at hph'
      simp only [Option.some_bind] at hph'
      by_cases hlen : bytes.length = 32
      · refine ⟨bytes, rfl, hlen, ?_⟩
        rw [if_pos hlen] at hph'
        have hhash : hash = PaymentHash.mk bytes := (Option.some.inj hph').symm
        rcases hcase with ⟨hsd, hv⟩ | ⟨hsd, hv⟩ <;> subst hv <;> exact hhash ▸ rfl
      · rw [if_neg hlen] at hph'
        exact absurd hph' (by simp)

/-- Claim C4 witness: a 63-hex-character payment hash is rejected with the
syntactic error. -/
theorem c4_payment_hash_exact_witness :
    split inC4 = ["1", cidOk, "buy", "5", "600", hash63] ∧ decodePaymentHash hash63 = none ∧
      SwapString.from_str cidDecodeModel inC4 = ParseResult.err "Unable to parse" :=
  ⟨by decide, by decide,
    (c4_payment_hash_exact cidDecodeModel inC4 "1" cidOk "buy" "5" "600" hash63 (by decide)).1
      (by decide)⟩

/-- Claim C5 counterexample: on a six-field input whose side token `"zzz"`
is neither `"buy"` nor `"sell"` and whose amount field is zero, the parser
reports the domain positivity error, not the syntactic `Invalid swap type`
error the claim predicts — the zero check of line 109 runs before the side
match of lines 114-126. -/
theorem c5_counterexample :
    split inC5 = ["0", cidOk, "zzz", "5", "600", hashOk] ∧
      SwapString.from_str cidDecodeModel inC5 =
        ParseResult.err "Amount, price and expiry should be positive" ∧
      SwapString.from_str cidDecodeModel inC5 ≠ ParseResult.err "Invalid swap type" := by
  refine ⟨by decide, by decide, by decide⟩

/-- Claim C5 as amended: checks trigger in the order structural
(field count), syntactic field decode (`Unable to parse`), domain
positivity, and only then side-token validity; in particular a six-field
input whose five decodable fields decode, with a zero amount, price or
expiry and a side token that is neither `"buy"` nor `"sell"`, reports the
domain positivity error, not `Invalid swap type`. -/
theorem c5_amended_domain_before_side (cidDecode : String → Option ContractId) (s : String)
    (a c sd p e ph : String) (av pv ev : Nat)
    (hsplit : split s = [a, c, sd, p, e, ph])
    (ha : parseU64 a = some av) (hc : (cidDecode c).isSome = true)
    (hp : parseU64 p = some pv) (he : parseU64 e = some ev)
    (hph : (decodePaymentHash ph).isSome = true)
    (hz : av = 0 ∨ pv = 0 ∨ ev = 0)
    (_hsd : sd ≠ "buy" ∧ sd ≠ "sell") :
    SwapString.from_str cidDecode s =
        ParseResult.err "Amount, price and expiry should be positive" ∧
      SwapString.from_str cidDecode s ≠ ParseResult.err "Invalid swap type" := by
  have hzero := from_str_zero cidDecode s a c sd p e ph av pv ev hsplit ha hc hp he hph hz
  exact ⟨hzero, by rw [hzero]; decide⟩

/-- Claim C5 amended witness: zero price together with an invalid side token
yields the positivity error. -/
theorem c5_amended_domain_before_side_witness :
    split inC5b = ["5", cidOk, "zzz", "0", "600", hashOk] ∧
      SwapString.from_str cidDecodeModel inC5b =
        ParseResult.err "Amount, price and expiry should be positive" :=
  ⟨by decide,
    (c5_amended_domain_before_side cidDecodeModel inC5b "5" cidOk "zzz" "0" "600" hashOk 5 0 600
        (by decide) (by decide) (by decide) (by decide) (by decide) (by decide)
        (Or.inr (Or.inl rfl)) (by decide)).1⟩

/-- Claim C6 evaluation at the failing input: with amount
`18446744073709551615` (`u64::MAX`) and price `2`, every field decodes and
the zero check passes, but the unchecked `u64` multiplication
`amount * price` at line 113 overflows 64 bits, so the parser does not
return a constructed value or an error reason: debug builds panic there
(release builds silently wrap the product). -/
theorem c6_overflow_aborts :
    SwapString.from_str cidDecodeModel inC6 = ParseResult.panicked ∧
      parseU64 "18446744073709551615" = some 18446744073709551615 ∧
      2 ^ 64 ≤ 18446744073709551615 * 2 := by
  refine ⟨by decide, by decide, by decide⟩

/-- Claim C7: `opposite` is an involution on `SwapType`, swaps the buy/sell
variant, and preserves both the asset amount and the msat amount. -/
theorem c7_opposite_involutive (d : SwapType) :
    d.opposite.opposite = d ∧ d.opposite.is_buy = !d.is_buy ∧
      d.opposite.asset_amount = d.asset_amount ∧ d.opposite.amt_msat = d.amt_msat := by
  cases d <;>
    simp [SwapType.opposite, SwapType.is_buy, SwapType.asset_amount, SwapType.amt_msat]

/-- Claim C8: the parser is deterministic — it is embedded as a total
function of the input string (and of the external contract-identifier
decoder), so equal inputs always produce identical results, with no I/O and
no shared state. -/
theorem c8_deterministic (cidDecode : String → Option ContractId) (s t : String)
    (h : s = t) :
    SwapString.from_str cidDecode s = SwapString.from_str cidDecode t := by
  rw [h]

/-- Claim C8 witness: two invocations on the same concrete string agree. -/
theorem c8_deterministic_witness :
    ("100/btc/buy/5/600/aa" : String) = "100/btc/buy/5/600/aa" ∧
      SwapString.from_str cidDecodeModel "100/btc/buy/5/600/aa" =
        SwapString.from_str cidDecodeModel "100/btc/buy/5/600/aa" :=
  ⟨rfl, c8_deterministic cidDecodeModel "100/btc/buy/5/600/aa" "100/btc/buy/5/600/aa" rfl⟩

/-- Claim C9 counterexample: no input whose second (`contract_id`) field is
the literal `"btc"` is ever accepted — line 87 passes the field straight to
the contract-identifier decoder with no special case, and `"btc"` is not a
canonical contract identifier. -/
theorem c9_counterexample_btc_never_accepted :
    ¬ ∃ (s : String) (v : SwapString),
        (split s).get? 1 = some "btc" ∧
          SwapString.from_str cidDecodeModel s = ParseResult.ok v := by
  rintro ⟨s, v, hbtc, hok⟩
  obtain ⟨a, c, sd, p, e, ph, amount, cid, price, expiry, hash,
    hsplit, ha, hc, hp, he, hph, -⟩ := from_str_ok_inv _ _ _ hok
  rw [hsplit] at hbtc
  simp only [List.get?] at hbtc
  have hcbtc : c = "btc" := Option.some.inj hbtc
  rw [hcbtc] at hc
  rw [show cidDecodeModel "btc" = none from by decide] at hc
  exact Option.noConfusion hc

/-- Claim C9 as amended: the priced layout does not special-case the
asset-identifier field — it is decoded by the canonical contract-identifier
decoder, the literal `btc` (which names the native currency, not a ledger
asset) does not decode, and every six-field input whose `contract_id` field
is exactly `"btc"` is rejected with `Unable to parse`. -/
theorem c9_amended_btc_unable (s : String) (a sd p e ph : String)
    (hsplit : split s = [a, "btc", sd, p, e, ph]) :
    SwapString.from_str cidDecodeModel s = ParseResult.err "Unable to parse" :=
  from_str_unable cidDecodeModel s a "btc" sd p e ph hsplit
    (Or.inr (Or.inl (by decide)))

/-- Claim C9 amended witness: the spec's example shape with `btc` in the
contract-id position and all other fields valid is rejected. -/
theorem c9_amended_btc_unable_witness :
    split inC9 = ["100", "btc", "buy", "5", "600", hashOk] ∧
      SwapString.from_str cidDecodeModel inC9 = ParseResult.err "Unable to parse" :=
  ⟨by decide, c9_amended_btc_unable inC9 "100" "buy" "5" "600" hashOk (by decide)⟩

/-- Claim C10: for every input the parser accepts, formatting the resulting
swap type with the `Display` impl reproduces the input's third (side)
field — `"buy"` when it was `"buy"`, `"sell"` when it was `"sell"`. -/
theorem c10_display_roundtrip (cidDecode : String → Option ContractId) (s : String)
    (v : SwapString) (a c sd p e ph : String)
    (hsplit : split s = [a, c, sd, p, e, ph])
    (hok : SwapString.from_str cidDecode s = ParseResult.ok v) :
    v.swap_type.fmt = sd := by
  obtain ⟨a', c', sd', p', e', ph', amount, cid, price, expiry, hash,
    hsplit', ha', hc', hp', he', hph', hz1, hz2, hz3, hov, hcase⟩ := from_str_ok_inv _ _ _ hok
  rw [hsplit] at hsplit'
  simp only [List.cons.injEq, and_true] at hsplit'
  obtain ⟨ea, ec, esd, ep, ee, eph⟩ := hsplit'
  subst esd
  rcases hcase with ⟨hsd, hv⟩ | ⟨hsd, hv⟩ <;> subst hv <;> subst hsd <;> rfl

/-- Claim C10 witness: the accepted input with side field `"sell"` formats
back to `"sell"`. -/
theorem c10_display_roundtrip_witness :
    split inC10 = ["7", cidOk, "sell", "3", "9", hashOk] ∧
      SwapString.from_str cidDecodeModel inC10 = ParseResult.ok vC10 ∧
      vC10.swap_type.fmt = "sell" :=
  ⟨by decide, by decide,
    c10_display_roundtrip cidDecodeModel inC10 vC10 "7" cidOk "sell" "3" "9" hashOk
      (by decide) (by decide)⟩
